import Mathlib

/-!
Verification of the time-series aggregation engine of `calcsun2.py`.

The embedding below translates the two data-processing functions of the
source, `parse_pvgis_hourly_data` (lines 242-267) and
`calculate_periods_generation` (lines 269-329), together with the derived
metrics `capacity_factor` and `specific_generation` (lines 364-367).

Modelling conventions:
* Python floats are modelled as rationals (`ℚ`); float-tolerance claims
  become exact equalities over `ℚ`.
* A pandas `DataFrame` of hourly records is a `List Row`; the `None`
  dataframe returned by the parser on missing data is `Option.none`.
* `pd.to_datetime(..., format := the fixed PVGIS format)` raising on an
  unparseable entry makes the whole call fail; this is modelled by an
  `Option`-valued traversal that returns `none` when any record fails.
* A Python `datetime.date` is encoded as the natural number
  `year * 10000 + month * 100 + day`; for valid calendar fields this
  encoding is strictly monotone in chronological order, so sorting by it
  is sorting chronologically.
* The UI divisions at lines 364/366 divide a NumPy `float64` (the
  dividend is `df['power_kwh'].sum()`), so a zero divisor produces
  `inf`/`nan` with a `RuntimeWarning` and nothing raises; the rational
  model computes the same formula unconditionally (no claim depends on
  the value at the unrepresentable `inf` point).
-/

/-- One element of `data["outputs"]["hourly"]`: the PVGIS time string and
the numeric columns `G(i)` (irradiance) and `T2m` (temperature) used by
the engine. -/
structure RawRecord where
  time : String
  gi : ℚ
  t2m : ℚ
deriving DecidableEq

/-- The parsed form of a `YYYYMMDD:HHMM` time string. -/
structure Timestamp where
  year : ℕ
  month : ℕ
  day : ℕ
  hour : ℕ
  minute : ℕ
deriving DecidableEq

/-- Decimal digit value of a character, `none` if not a digit. -/
def digitVal (c : Char) : Option ℕ :=
  let n := c.toNat
  if 48 ≤ n ∧ n ≤ 57 then some (n - 48) else none

/-- Gregorian leap-year rule, as used by `datetime`. -/
def isLeap (y : ℕ) : Bool :=
  y % 4 == 0 && (y % 100 != 0 || y % 400 == 0)

/-- Number of days in a month of the Gregorian calendar. -/
def daysInMonth (y m : ℕ) : ℕ :=
  if m = 2 then (if isLeap y then 29 else 28)
  else if m = 4 ∨ m = 6 ∨ m = 9 ∨ m = 11 then 30
  else 31

/-- Ordinal day of the year (`df['time'].dt.dayofyear`): days in the
months before `m`, plus `d`. -/
def dayOfYear (y m d : ℕ) : ℕ :=
  ((List.range (m - 1)).map (fun i => daysInMonth y (i + 1))).sum + d

/-- Rata-die day number of a proleptic-Gregorian date (day 1 is
0001-01-01, a Monday). -/
def rataDie (y m d : ℕ) : ℕ :=
  (365 * (y - 1) + (y - 1) / 4 + (y - 1) / 400) - (y - 1) / 100 + dayOfYear y m d

/-- ISO-8601 weekday: 1 = Monday .. 7 = Sunday. -/
def isoWeekday (y m d : ℕ) : ℕ :=
  (rataDie y m d - 1) % 7 + 1

/-- Number of ISO weeks in a year: 53 iff January 1 is a Thursday, or the
year is leap and January 1 is a Wednesday; otherwise 52. -/
def isoWeeksInYear (y : ℕ) : ℕ :=
  if isoWeekday y 1 1 = 4 ∨ (isLeap y ∧ isoWeekday y 1 1 = 3) then 53 else 52

/-- ISO-8601 week number (`df['time'].dt.isocalendar().week`): the week
containing the year's first Thursday is week 1. -/
def isoWeek (y m d : ℕ) : ℕ :=
  let w := (dayOfYear y m d + 10 - isoWeekday y m d) / 7
  if w = 0 then isoWeeksInYear (y - 1)
  else if w = 53 ∧ isoWeeksInYear y = 52 then 1
  else w

/-- Value of a two-digit group, `none` if either character is not a
digit. -/
def twoDigitVal (a b : Char) : Option ℕ :=
  do
    let x ← digitVal a
    let y ← digitVal b
    pure (x * 10 + y)

/-- Strict parse of the fixed PVGIS format `%Y%m%d:%H%M`: thirteen
characters, eight digits, a colon, four digits, with the calendar and
clock fields in range (as `pd.to_datetime` enforces). -/
def parseTimestamp (s : String) : Option Timestamp :=
  match s.toList with
  | [y1, y2, y3, y4, m1, m2, d1, d2, c, h1, h2, n1, n2] =>
    if c = ':' then
      do
        let yh ← twoDigitVal y1 y2
        let yl ← twoDigitVal y3 y4
        let month ← twoDigitVal m1 m2
        let day ← twoDigitVal d1 d2
        let hour ← twoDigitVal h1 h2
        let minute ← twoDigitVal n1 n2
        let year := yh * 100 + yl
        if 1 ≤ month ∧ month ≤ 12 ∧ 1 ≤ day ∧ day ≤ daysInMonth year month
            ∧ hour ≤ 23 ∧ minute ≤ 59 then
          some ⟨year, month, day, hour, minute⟩
        else
          none
    else none
  | _ => none

/-- One row of the normalized dataframe built by
`parse_pvgis_hourly_data`: the parsed time, the derived calendar columns,
the carried-through data columns, and the derived energy columns. -/
structure Row where
  time : Timestamp
  date : ℕ
  month : ℕ
  week : ℕ
  hour : ℕ
  day_of_year : ℕ
  year : ℕ
  gi : ℚ
  t2m : ℚ
  power_wh : ℚ
  power_kwh : ℚ
deriving DecidableEq

/-- Encoded `datetime.date` of a timestamp (see module comment). -/
def dateKey (t : Timestamp) : ℕ :=
  t.year * 10000 + t.month * 100 + t.day

/-- The per-record work of `parse_pvgis_hourly_data` (lines 251-265):
parse the time string, derive the calendar columns, and compute
`power_wh = G(i) * panel_area * system_efficiency` with
`system_efficiency = 0.16` and `panel_area = peak_power * 6.5`, and
`power_kwh = power_wh / 1000`. -/
def mkRow (peak_power : ℚ) (r : RawRecord) : Option Row :=
  (parseTimestamp r.time).map fun t =>
    let system_efficiency : ℚ := 0.16
    let panel_area : ℚ := peak_power * 6.5
    let pwh : ℚ := r.gi * panel_area * system_efficiency
    { time := t
      date := dateKey t
      month := t.month
      week := isoWeek t.year t.month t.day
      hour := t.hour
      day_of_year := dayOfYear t.year t.month t.day
      year := t.year
      gi := r.gi
      t2m := r.t2m
      power_wh := pwh
      power_kwh := pwh / 1000 }

/-- Option-valued traversal: all records must convert, otherwise the
whole call fails with no partial result (as the raising
`pd.to_datetime` call makes the whole function raise). -/
def mapOption (f : α → Option β) : List α → Option (List β)
  | [] => some []
  | a :: as =>
    match f a, mapOption f as with
    | some b, some bs => some (b :: bs)
    | _, _ => none

/-- `parse_pvgis_hourly_data` (lines 242-267): `none` when the response
is missing or has no `outputs` key, otherwise the normalized dataframe.
`peak_power` is the global slider value read by the function body. -/
def parse_pvgis_hourly_data (data : Option (List RawRecord)) (peak_power : ℚ) :
    Option (List Row) :=
  match data with
  | none => none
  | some hourly_data => mapOption (mkRow peak_power) hourly_data

/-- One row of a `groupby(...).agg(...)` result after `reset_index()`:
the grouping key (encoded as a natural number, see module comment), the
summed `power_kwh` and the mean `G(i)` and `T2m` of the group. -/
structure SummaryRow where
  key : ℕ
  power_kwh : ℚ
  gi : ℚ
  t2m : ℚ
deriving DecidableEq

/-- `series.mean()`: the sum divided by the length (on an empty frame
pandas yields NaN; no claim depends on that case). -/
def listMean (xs : List ℚ) : ℚ :=
  xs.sum / xs.length

/-- `series.max()` on a nonempty series (pandas yields NaN on an empty
one; no claim depends on that case). -/
def listMax (xs : List ℚ) : ℚ :=
  match xs with
  | [] => 0
  | x :: rest => rest.foldl max x

/-- `df.groupby(key).agg({'power_kwh': 'sum', 'G(i)': 'mean',
'T2m': 'mean'}).reset_index()`: pandas sorts the group keys ascending
(`sort=True` is the groupby default), and aggregates each group. -/
def groupAgg (key : Row → ℕ) (df : List Row) : List SummaryRow :=
  (((df.map key).dedup).insertionSort (· ≤ ·)).map fun k =>
    let g := df.filter (fun row => key row == k)
    { key := k
      power_kwh := (g.map Row.power_kwh).sum
      gi := (g.map Row.gi).sum / g.length
      t2m := (g.map Row.t2m).sum / g.length }

/-- Grouping key of the hourly table, `groupby(['date', 'hour'])`: the
pair is encoded as `date * 100 + hour`, which for `hour ≤ 23 < 100` is
order-isomorphic to the lexicographic (date, hour) order pandas sorts
by. -/
def hourlyKey (row : Row) : ℕ :=
  row.date * 100 + row.hour

/-- The dictionary returned by `calculate_periods_generation`
(lines 315-329). -/
structure Report where
  hourly : List SummaryRow
  daily : List SummaryRow
  weekly : List SummaryRow
  monthly : List SummaryRow
  yearly_total : ℚ
  avg_hourly : ℚ
  avg_daily : ℚ
  avg_weekly : ℚ
  avg_monthly : ℚ
  avg_radiation : ℚ
  max_radiation : ℚ
  raw_data : List Row
  data_year : ℕ
deriving DecidableEq

/-- `calculate_periods_generation(df, peak_power)` (lines 269-329):
returns `None` when the dataframe is `None`, otherwise groups the frame
by (date, hour), date, week and month, and derives the totals and
averages. The `peak_power` parameter is never read by the body;
`selected_year` is the global read when the frame is empty. -/
def calculate_periods_generation (df : Option (List Row)) (peak_power : ℚ)
    (selected_year : ℕ) : Option Report :=
  match df with
  | none => none
  | some rows =>
    let hourly := groupAgg hourlyKey rows
    let daily := groupAgg Row.date rows
    let weekly := groupAgg Row.week rows
    let monthly := groupAgg Row.month rows
    some
      { hourly := hourly
        daily := daily
        weekly := weekly
        monthly := monthly
        yearly_total := (rows.map Row.power_kwh).sum
        avg_hourly := listMean (rows.map Row.power_kwh)
        avg_daily := listMean (daily.map SummaryRow.power_kwh)
        avg_weekly := listMean (weekly.map SummaryRow.power_kwh)
        avg_monthly := listMean (monthly.map SummaryRow.power_kwh)
        avg_radiation := listMean (rows.map Row.gi)
        max_radiation := listMax (rows.map Row.gi)
        raw_data := rows
        data_year :=
          match rows with
          | [] => selected_year
          | r :: _ => r.year }

/-- Line 364: `capacity_factor = (periods_data['yearly_total'] /
(peak_power * 8760)) * 100`, computed unconditionally (no validation;
the NumPy `float64` dividend makes a zero divisor yield `inf` with a
`RuntimeWarning` rather than raising — see module comment). -/
def capacity_factor (yearly_total peak_power : ℚ) : ℚ :=
  yearly_total / (peak_power * 8760) * 100

/-- Line 366: `specific_generation = periods_data['yearly_total'] /
peak_power`, computed unconditionally (same NumPy division semantics as
`capacity_factor`). -/
def specific_generation (yearly_total peak_power : ℚ) : ℚ :=
  yearly_total / peak_power

/-! ### Sample inputs used by witnesses and counterexamples -/

/-- A well-formed raw record: 2020-06-01 11:00, 1000 W/m², 25 °C. -/
def sampleRaw1 : RawRecord := ⟨"20200601:1100", 1000, 25⟩

/-- A second well-formed raw record: 2020-06-02 12:00, 500 W/m², 20 °C. -/
def sampleRaw2 : RawRecord := ⟨"20200602:1200", 500, 20⟩

/-- A raw record whose time string does not match `%Y%m%d:%H%M`. -/
def sampleRawBad : RawRecord := ⟨"2020x601:1100", 1000, 25⟩

/-- The normalized frame for the two well-formed sample records at peak
power 5 kW. -/
def sampleRows : List Row :=
  (parse_pvgis_hourly_data (some [sampleRaw1, sampleRaw2]) 5).getD []

/-- A report with no content, used only as a `getD` default. -/
def emptyReport : Report :=
  ⟨[], [], [], [], 0, 0, 0, 0, 0, 0, 0, [], 0⟩

/-- The report computed from `sampleRows`. -/
def sampleReport : Report :=
  (calculate_periods_generation (some sampleRows) 5 2020).getD emptyReport

/-! ### Helper lemmas about the traversal -/

theorem mapOption_cons (f : α → Option β) (a : α) (as : List α) :
    mapOption f (a :: as) =
      match f a, mapOption f as with
      | some b, some bs => some (b :: bs)
      | _, _ => none := rfl

theorem mapOption_map_eq (f : α → Option β) (g : β → γ) (h : α → γ)
    (hfg : ∀ a b, f a = some b → g b = h a) :
    ∀ (l : List α) (bs : List β), mapOption f l = some bs → bs.map g = l.map h := by
  intro l
  induction l with
  | nil =>
    intro bs hbs
    simp only [mapOption, Option.some.injEq] at hbs
    subst hbs
    simp
  | cons a as ih =>
    intro bs hbs
    rw [mapOption_cons] at hbs
    cases hfa : f a with
    | none => rw [hfa] at hbs; exact absurd hbs (by simp)
    | some b =>
      cases hrec : mapOption f as with
      | none => rw [hfa, hrec] at hbs; exact absurd hbs (by simp)
      | some bs' =>
        rw [hfa, hrec] at hbs
        simp only [Option.some.injEq] at hbs
        subst hbs
        simp [ih bs' hrec, hfg a b hfa]

theorem mapOption_mem (f : α → Option β) :
    ∀ (l : List α) (bs : List β), mapOption f l = some bs →
      ∀ b ∈ bs, ∃ a ∈ l, f a = some b := by
  intro l
  induction l with
  | nil =>
    intro bs hbs b hb
    simp only [mapOption, Option.some.injEq] at hbs
    subst hbs
    simp at hb
  | cons a as ih =>
    intro bs hbs b hb
    rw [mapOption_cons] at hbs
    cases hfa : f a with
    | none => rw [hfa] at hbs; exact absurd hbs (by simp)
    | some b' =>
      cases hrec : mapOption f as with
      | none => rw [hfa, hrec] at hbs; exact absurd hbs (by simp)
      | some bs' =>
        rw [hfa, hrec] at hbs
        simp only [Option.some.injEq] at hbs
        subst hbs
        rcases List.mem_cons.mp hb with hb' | hb'
        · exact ⟨a, List.mem_cons_self _ _, by rw [hfa, hb']⟩
        · obtain ⟨a', ha', hfa'⟩ := ih bs' hrec b hb'
          exact ⟨a', List.mem_cons_of_mem _ ha', hfa'⟩

theorem mapOption_none (f : α → Option β) :
    ∀ (l : List α) (a : α), a ∈ l → f a = none → mapOption f l = none := by
  intro l
  induction l with
  | nil => intro a ha; simp at ha
  | cons x xs ih =>
    intro a ha hfa
    rw [mapOption_cons]
    rcases List.mem_cons.mp ha with h | h
    · subst h; rw [hfa]
    · rw [ih a h hfa]
      cases f x <;> rfl

/-- The energy columns produced by one record conversion. -/
theorem mkRow_power_kwh (p : ℚ) (r : RawRecord) (row : Row)
    (h : mkRow p r = some row) :
    row.power_kwh = r.gi * (p * 6.5) * 0.16 / 1000 := by
  unfold mkRow at h
  cases hp : parseTimestamp r.time with
  | none => rw [hp] at h; exact absurd h (by simp)
  | some t =>
    rw [hp, Option.map_some'] at h
    simp only [Option.some.injEq] at h
    subst h
    rfl

/-! ### Claims about the normalizer -/

/-- C1: for every input record with irradiance `g` and configuration
with peak power `p`, the derived energy value is
`g * (p * 6.5) * 0.16 / 1000` kWh. -/
theorem power_kwh_formula (peak_power : ℚ) (l : List RawRecord) (rows : List Row)
    (h : parse_pvgis_hourly_data (some l) peak_power = some rows) :
    rows.map Row.power_kwh
      = l.map (fun r => r.gi * (peak_power * 6.5) * 0.16 / 1000) :=
  mapOption_map_eq (mkRow peak_power) Row.power_kwh _
    (fun r row hr => mkRow_power_kwh peak_power r row hr) l rows h

/-- The single normalized record for `sampleRaw1` at peak power 5 kW. -/
def c1Rows : List Row :=
  (parse_pvgis_hourly_data (some [sampleRaw1]) 5).getD []

theorem power_kwh_formula_witness : c1Rows.map Row.power_kwh = [(5.2 : ℚ)] := by
  rw [power_kwh_formula 5 [sampleRaw1] c1Rows rfl]
  simp only [List.map_cons, List.map_nil, sampleRaw1]
  norm_num

/-- C9: for every input record with non-negative irradiance and every
positive peak power, the derived energy of the corresponding normalized
record is non-negative. -/
theorem power_kwh_nonneg (p : ℚ) (l : List RawRecord) (rows : List Row)
    (hp : 0 < p) (hg : ∀ r ∈ l, 0 ≤ r.gi)
    (h : parse_pvgis_hourly_data (some l) p = some rows) :
    ∀ row ∈ rows, 0 ≤ row.power_kwh := by
  intro row hrow
  obtain ⟨r, hr, hfr⟩ := mapOption_mem (mkRow p) l rows h row hrow
  rw [mkRow_power_kwh p r row hfr]
  have hgi := hg r hr
  have hp65 : (0 : ℚ) ≤ p * 6.5 := le_of_lt (mul_pos hp (by norm_num))
  exact div_nonneg (mul_nonneg (mul_nonneg hgi hp65) (by norm_num)) (by norm_num)

theorem power_kwh_nonneg_witness :
    List.Forall (fun row => 0 ≤ row.power_kwh) sampleRows :=
  List.forall_iff_forall_mem.mpr
    (power_kwh_nonneg 5 [sampleRaw1, sampleRaw2] sampleRows (by norm_num)
      (by decide) rfl)

/-- C8: if any raw record's time string is not parseable in the fixed
format `YYYYMMDD:HHMM`, the whole normalization call fails, producing no
partial sequence of normalized records. -/
theorem malformed_time_fails_whole_call (l : List RawRecord) (p : ℚ)
    (r : RawRecord) (hr : r ∈ l) (hbad : parseTimestamp r.time = none) :
    parse_pvgis_hourly_data (some l) p = none := by
  have hnone : mkRow p r = none := by
    unfold mkRow
    rw [hbad]
    rfl
  exact mapOption_none (mkRow p) l r hr hnone

theorem malformed_time_fails_whole_call_witness :
    parse_pvgis_hourly_data (some [sampleRaw1, sampleRawBad]) 5 = none :=
  malformed_time_fails_whole_call [sampleRaw1, sampleRawBad] 5 sampleRawBad
    (by decide) (by decide)

/-! ### Claims about the aggregator's error behaviour -/

/-- C6 fails on the code: aggregating an empty (but present) record
sequence returns a zero-totalled report instead of failing. -/
theorem empty_frame_returns_zero_report :
    (calculate_periods_generation (some []) 5 2020).map Report.yearly_total
      = some 0 := rfl

/-- C6 amended: aggregation of an empty record sequence returns a
report whose yearly total is 0 (a zero-filled report, not an error);
only a missing (`None`) dataframe makes the function return `None`. -/
theorem empty_frame_behavior (p : ℚ) (y : ℕ) :
    (calculate_periods_generation (some []) p y).map Report.yearly_total = some 0
      ∧ calculate_periods_generation none p y = none :=
  ⟨rfl, rfl⟩

/-- C7 fails on the code: with peak power 0 the aggregation is still
performed and returns a report; there is no `InvalidConfig` validation
anywhere. -/
theorem zero_peak_power_still_aggregates :
    (calculate_periods_generation (some sampleRows) 0 2020).isSome = true := rfl

/-- C7 amended: there is no `InvalidConfig` validation and nothing
fails: with peak power 0 the aggregation still runs to completion and
returns a full report, and the capacity-factor and specific-generation
expressions still perform their divisions unconditionally (the NumPy
`float64` division producing `inf`, a value, not an exception). -/
theorem zero_peak_power_behavior (l : List Row) (y : ℕ) (E : ℚ) :
    (calculate_periods_generation (some l) 0 y).isSome = true
      ∧ capacity_factor E 0 = E / (0 * 8760) * 100
      ∧ specific_generation E 0 = E / 0 :=
  ⟨rfl, rfl, rfl⟩

/-- C10: the `peak_power` parameter of `calculate_periods_generation` is
never read, so any two peak powers yield identical reports. -/
theorem calculate_ignores_peak_power (df : Option (List Row)) (p₁ p₂ : ℚ)
    (y : ℕ) :
    calculate_periods_generation df p₁ y = calculate_periods_generation df p₂ y :=
  rfl

/-! ### Claims about derived metrics and averages -/

/-- Number of rows of a grouped summary: one per distinct key. -/
theorem groupAgg_length (key : Row → ℕ) (l : List Row) :
    (groupAgg key l).length = ((l.map key).dedup).length := by
  simp [groupAgg, List.length_insertionSort]

/-- C2: for a non-empty normalized series with yearly total `E` and
positive peak power `p`, the reported capacity factor is
`E / (p * 8760) * 100` and the reported specific generation is `E / p`;
when the yearly total is 8760 kWh at 1 kW peak power, the capacity
factor is exactly 100. -/
theorem capacity_specific_formulas (l : List Row) (r : Report) (p : ℚ) (y : ℕ)
    (hne : l ≠ []) (hp : 0 < p)
    (h : calculate_periods_generation (some l) p y = some r) :
    capacity_factor r.yearly_total p = r.yearly_total / (p * 8760) * 100
      ∧ specific_generation r.yearly_total p = r.yearly_total / p
      ∧ (r.yearly_total = 8760 → p = 1 →
          capacity_factor r.yearly_total p = 100) := by
  refine ⟨rfl, rfl, ?_⟩
  intro hE hp1
  subst hp1
  rw [hE]
  unfold capacity_factor
  norm_num

/-- A raw record whose derived energy at 1 kW peak power is exactly
8760 kWh (irradiance `8760000 / 1.04`). -/
def c2Raw : RawRecord := ⟨"20200601:1100", 109500000 / 13, 25⟩

/-- The normalized frame for `c2Raw` at peak power 1 kW. -/
def c2Rows : List Row :=
  (parse_pvgis_hourly_data (some [c2Raw]) 1).getD []

/-- The report computed from `c2Rows`. -/
def c2Report : Report :=
  (calculate_periods_generation (some c2Rows) 1 2020).getD emptyReport

theorem capacity_specific_formulas_witness :
    capacity_factor c2Report.yearly_total 1
        = c2Report.yearly_total / (1 * 8760) * 100
      ∧ specific_generation c2Report.yearly_total 1
        = c2Report.yearly_total / 1
      ∧ capacity_factor c2Report.yearly_total 1 = 100 := by
  obtain ⟨h1, h2, h3⟩ :=
    capacity_specific_formulas c2Rows c2Report 1 2020 (by decide) (by norm_num) rfl
  have hE : c2Report.yearly_total = 8760 := by
    show (109500000 / 13 : ℚ) * (1 * 6.5) * 0.16 / 1000 + 0 = 8760
    norm_num
  exact ⟨h1, h2, h3 hE rfl⟩

/-- C3: the reported average hourly value is the yearly total divided by
the record count, and each of the average daily, weekly and monthly
values is the arithmetic mean of the total-energy column of its own
summary table (sum of the column divided by the number of distinct
grouping keys), not the yearly total over a fixed period count. -/
theorem averages_are_table_means (l : List Row) (r : Report) (p : ℚ) (y : ℕ)
    (hne : l ≠ []) (h : calculate_periods_generation (some l) p y = some r) :
    r.avg_hourly = r.yearly_total / l.length
      ∧ r.avg_daily
          = (r.daily.map SummaryRow.power_kwh).sum / ((l.map Row.date).dedup).length
      ∧ r.avg_weekly
          = (r.weekly.map SummaryRow.power_kwh).sum / ((l.map Row.week).dedup).length
      ∧ r.avg_monthly
          = (r.monthly.map SummaryRow.power_kwh).sum
              / ((l.map Row.month).dedup).length := by
  simp only [calculate_periods_generation, Option.some.injEq] at h
  subst h
  refine ⟨?_, ?_, ?_, ?_⟩
  · show listMean (l.map Row.power_kwh) = (l.map Row.power_kwh).sum / l.length
    rw [listMean, List.length_map]
  · show listMean ((groupAgg Row.date l).map SummaryRow.power_kwh) = _
    rw [listMean, List.length_map, groupAgg_length]
  · show listMean ((groupAgg Row.week l).map SummaryRow.power_kwh) = _
    rw [listMean, List.length_map, groupAgg_length]
  · show listMean ((groupAgg Row.month l).map SummaryRow.power_kwh) = _
    rw [listMean, List.length_map, groupAgg_length]

theorem averages_are_table_means_witness :
    sampleReport.avg_hourly = sampleReport.yearly_total / sampleRows.length
      ∧ sampleReport.avg_daily
        = (sampleReport.daily.map SummaryRow.power_kwh).sum
            / ((sampleRows.map Row.date).dedup).length :=
  ⟨(averages_are_table_means sampleRows sampleReport 5 2020 (by decide) rfl).1,
   (averages_are_table_means sampleRows sampleReport 5 2020 (by decide) rfl).2.1⟩

/-! ### Sum conservation of grouped tables -/

theorem sum_map_filter_split {α : Type _} (p : α → Bool) (f : α → ℚ) :
    ∀ l : List α,
      ((l.filter p).map f).sum + ((l.filter (fun a => !(p a))).map f).sum
        = (l.map f).sum := by
  intro l
  induction l with
  | nil => simp
  | cons a as ih =>
    cases hpa : p a
    · simp [List.filter_cons, hpa]
      rw [← ih]
      ring
    · simp [List.filter_cons, hpa]
      rw [← ih]
      ring

theorem sum_over_keys {α : Type _} (key : α → ℕ) (f : α → ℚ) :
    ∀ (ks : List ℕ) (l : List α), ks.Nodup → (∀ x ∈ l, key x ∈ ks) →
      (ks.map (fun k => ((l.filter (fun a => key a == k)).map f).sum)).sum
        = (l.map f).sum := by
  intro ks
  induction ks with
  | nil =>
    intro l _ hcov
    cases l with
    | nil => simp
    | cons x xs => exact absurd (hcov x (List.mem_cons_self x xs)) (List.not_mem_nil _)
  | cons k ks ih =>
    intro l hnd hcov
    have hk_not : k ∉ ks := (List.nodup_cons.mp hnd).1
    have hnd' : ks.Nodup := (List.nodup_cons.mp hnd).2
    have hmain : ∀ k' ∈ ks,
        l.filter (fun a => key a == k')
          = (l.filter (fun a => !(key a == k))).filter (fun a => key a == k') := by
      intro k' hk'
      have hkk : k' ≠ k := fun hh => hk_not (hh ▸ hk')
      rw [List.filter_filter]
      apply List.filter_congr
      intro a _
      cases h1 : (key a == k')
      · simp
      · have ha : key a = k' := eq_of_beq h1
        have hne : (key a == k) = false := by
          apply beq_eq_false_iff_ne.mpr
          rw [ha]
          exact hkk
        simp [hne]
    rw [List.map_cons, List.sum_cons,
      List.map_congr_left (fun k' hk' =>
        congrArg (fun t => (List.map f t).sum) (hmain k' hk')),
      ih (l.filter (fun a => !(key a == k))) hnd' ?cov]
    · exact sum_map_filter_split (fun a => key a == k) f l
    case cov =>
      intro x hx
      have hxl : x ∈ l := List.mem_of_mem_filter hx
      rcases List.mem_cons.mp (hcov x hxl) with h | h
      · exfalso
        have := (List.mem_filter.mp hx).2
        rw [h] at this
        simp at this
      · exact h

/-- The total of a grouped table's energy column is the total of the
underlying frame's energy column. -/
theorem groupAgg_sum (key : Row → ℕ) (l : List Row) :
    ((groupAgg key l).map SummaryRow.power_kwh).sum = (l.map Row.power_kwh).sum := by
  unfold groupAgg
  rw [List.map_map]
  have hperm :
      List.Perm (((l.map key).dedup).insertionSort (· ≤ ·)) ((l.map key).dedup) :=
    List.perm_insertionSort _ _
  calc ((((l.map key).dedup).insertionSort (· ≤ ·)).map
          (fun k => ((l.filter (fun row => key row == k)).map Row.power_kwh).sum)).sum
      = (((l.map key).dedup).map
          (fun k => ((l.filter (fun row => key row == k)).map Row.power_kwh).sum)).sum :=
        (hperm.map _).sum_eq
    _ = (l.map Row.power_kwh).sum :=
        sum_over_keys key Row.power_kwh ((l.map key).dedup) l (List.nodup_dedup _)
          (fun x hx => List.mem_dedup.mpr (List.mem_map_of_mem key hx))

/-- C4: the sum of the daily table's total-energy column equals the
reported yearly total, and likewise for the monthly table (exact over
`ℚ`). -/
theorem sum_conservation (l : List Row) (r : Report) (p : ℚ) (y : ℕ)
    (hne : l ≠ []) (h : calculate_periods_generation (some l) p y = some r) :
    (r.daily.map SummaryRow.power_kwh).sum = r.yearly_total
      ∧ (r.monthly.map SummaryRow.power_kwh).sum = r.yearly_total := by
  simp only [calculate_periods_generation, Option.some.injEq] at h
  subst h
  exact ⟨groupAgg_sum Row.date l, groupAgg_sum Row.month l⟩

theorem sum_conservation_witness :
    (sampleReport.daily.map SummaryRow.power_kwh).sum = sampleReport.yearly_total
      ∧ (sampleReport.monthly.map SummaryRow.power_kwh).sum
          = sampleReport.yearly_total :=
  sum_conservation sampleRows sampleReport 5 2020 (by decide) rfl

/-! ### Ordering and permutation invariance of grouped tables -/

/-- The key column of a grouped table is the sorted deduplicated key
list. -/
theorem groupAgg_keys (key : Row → ℕ) (l : List Row) :
    (groupAgg key l).map SummaryRow.key
      = ((l.map key).dedup).insertionSort (· ≤ ·) := by
  unfold groupAgg
  rw [List.map_map]
  exact List.map_id _

theorem groupAgg_keys_sorted (key : Row → ℕ) (l : List Row) :
    List.Sorted (· < ·) ((groupAgg key l).map SummaryRow.key) := by
  rw [groupAgg_keys]
  have hs : List.Sorted (· ≤ ·) (((l.map key).dedup).insertionSort (· ≤ ·)) :=
    List.sorted_insertionSort _ _
  have hnd : (((l.map key).dedup).insertionSort (· ≤ ·)).Nodup :=
    ((List.perm_insertionSort _ _).nodup_iff).mpr (List.nodup_dedup _)
  exact (hs.and hnd).imp (fun h => lt_of_le_of_ne h.1 h.2)

/-- Grouping is by key, not position: a permutation of the frame yields
the identical grouped table. -/
theorem groupAgg_perm (key : Row → ℕ) {l l' : List Row} (h : List.Perm l l') :
    groupAgg key l = groupAgg key l' := by
  unfold groupAgg
  have hkeys : ((l.map key).dedup).insertionSort (· ≤ ·)
      = ((l'.map key).dedup).insertionSort (· ≤ ·) :=
    List.eq_of_perm_of_sorted
      (((List.perm_insertionSort _ _).trans ((h.map key).dedup)).trans
        (List.perm_insertionSort _ _).symm)
      (List.sorted_insertionSort _ _) (List.sorted_insertionSort _ _)
  rw [hkeys]
  apply List.map_congr_left
  intro k _
  have hf : List.Perm (l.filter (fun row => key row == k))
      (l'.filter (fun row => key row == k)) := h.filter _
  dsimp only
  rw [(hf.map Row.power_kwh).sum_eq, (hf.map Row.gi).sum_eq,
    (hf.map Row.t2m).sum_eq, hf.length_eq]

theorem foldl_max_init_le (l : List ℚ) : ∀ b : ℚ, b ≤ l.foldl max b := by
  induction l with
  | nil => intro b; exact le_refl b
  | cons a t ih => intro b; exact le_trans (le_max_left b a) (ih (max b a))

theorem foldl_max_le_of_mem (l : List ℚ) :
    ∀ (b x : ℚ), x ∈ l → x ≤ l.foldl max b := by
  induction l with
  | nil => intro b x hx; simp at hx
  | cons a t ih =>
    intro b x hx
    rcases List.mem_cons.mp hx with rfl | hx
    · exact le_trans (le_max_right b x) (foldl_max_init_le t (max b x))
    · exact ih (max b a) x hx

theorem foldl_max_mem (l : List ℚ) : ∀ b : ℚ, l.foldl max b ∈ b :: l := by
  induction l with
  | nil => intro b; simp
  | cons a t ih =>
    intro b
    rw [List.foldl_cons]
    rcases List.mem_cons.mp (ih (max b a)) with h | h
    · rcases max_choice b a with hh | hh
      · rw [h, hh]; exact List.mem_cons_self _ _
      · rw [h, hh]; exact List.mem_cons_of_mem _ (List.mem_cons_self _ _)
    · exact List.mem_cons_of_mem _ (List.mem_cons_of_mem _ h)

theorem le_listMax {l : List ℚ} {x : ℚ} (hx : x ∈ l) : x ≤ listMax l := by
  cases l with
  | nil => simp at hx
  | cons a t =>
    rcases List.mem_cons.mp hx with rfl | hx'
    · exact foldl_max_init_le t x
    · exact foldl_max_le_of_mem t a x hx'

theorem listMax_mem {l : List ℚ} (h : l ≠ []) : listMax l ∈ l := by
  cases l with
  | nil => exact absurd rfl h
  | cons a t => exact foldl_max_mem t a

theorem listMax_perm {l l' : List ℚ} (h : List.Perm l l') :
    listMax l = listMax l' := by
  cases l with
  | nil =>
    rw [h.symm.eq_nil]
  | cons a t =>
    have hne : (a :: t) ≠ [] := by simp
    have hne' : l' ≠ [] := by
      intro hh
      subst hh
      exact absurd h.eq_nil (by simp)
    exact le_antisymm
      (le_listMax (h.mem_iff.mp (listMax_mem hne)))
      (le_listMax (h.mem_iff.mpr (listMax_mem hne')))

/-- C5 fails as literally stated: the returned report embeds the input
frame itself (`raw_data`), so permuting the input changes the report. -/
theorem report_differs_under_permutation :
    calculate_periods_generation (some sampleRows) 5 2020
      ≠ calculate_periods_generation (some sampleRows.reverse) 5 2020 := by
  have hproj :
      (calculate_periods_generation (some sampleRows) 5 2020).map
          (fun r => r.raw_data.map Row.date)
        ≠ (calculate_periods_generation (some sampleRows.reverse) 5 2020).map
          (fun r => r.raw_data.map Row.date) := by decide
  exact fun hEq => hproj (congrArg _ hEq)

/-- C5 amended: permuting the input changes only the `raw_data` echo of
the input (and, across years, the `data_year` field taken from the first
record): all four summary tables, the yearly total, every average and
the radiation statistics are identical, and each summary table is
strictly ascending in its grouping key ((date, hour) chronological for
hourly, date chronological for daily, week for weekly, month for
monthly), not ordered by first appearance. -/
theorem aggregation_perm_invariant_and_sorted (l l' : List Row) (p p' : ℚ)
    (y y' : ℕ) (r r' : Report) (hperm : List.Perm l l')
    (h : calculate_periods_generation (some l) p y = some r)
    (h' : calculate_periods_generation (some l') p' y' = some r') :
    (r.hourly = r'.hourly ∧ r.daily = r'.daily ∧ r.weekly = r'.weekly
        ∧ r.monthly = r'.monthly)
      ∧ (r.yearly_total = r'.yearly_total ∧ r.avg_hourly = r'.avg_hourly
        ∧ r.avg_daily = r'.avg_daily ∧ r.avg_weekly = r'.avg_weekly
        ∧ r.avg_monthly = r'.avg_monthly ∧ r.avg_radiation = r'.avg_radiation
        ∧ r.max_radiation = r'.max_radiation)
      ∧ (List.Sorted (· < ·) (r.hourly.map SummaryRow.key)
        ∧ List.Sorted (· < ·) (r.daily.map SummaryRow.key)
        ∧ List.Sorted (· < ·) (r.weekly.map SummaryRow.key)
        ∧ List.Sorted (· < ·) (r.monthly.map SummaryRow.key)) := by
  simp only [calculate_periods_generation, Option.some.injEq] at h h'
  subst h
  subst h'
  refine ⟨⟨?_, ?_, ?_, ?_⟩, ⟨?_, ?_, ?_, ?_, ?_, ?_, ?_⟩, ?_, ?_, ?_, ?_⟩
  · exact groupAgg_perm hourlyKey hperm
  · exact groupAgg_perm Row.date hperm
  · exact groupAgg_perm Row.week hperm
  · exact groupAgg_perm Row.month hperm
  · exact (hperm.map Row.power_kwh).sum_eq
  · show listMean (l.map Row.power_kwh) = listMean (l'.map Row.power_kwh)
    rw [listMean, listMean, (hperm.map Row.power_kwh).sum_eq,
      (hperm.map Row.power_kwh).length_eq]
  · show listMean ((groupAgg Row.date l).map SummaryRow.power_kwh)
        = listMean ((groupAgg Row.date l').map SummaryRow.power_kwh)
    rw [groupAgg_perm Row.date hperm]
  · show listMean ((groupAgg Row.week l).map SummaryRow.power_kwh)
        = listMean ((groupAgg Row.week l').map SummaryRow.power_kwh)
    rw [groupAgg_perm Row.week hperm]
  · show listMean ((groupAgg Row.month l).map SummaryRow.power_kwh)
        = listMean ((groupAgg Row.month l').map SummaryRow.power_kwh)
    rw [groupAgg_perm Row.month hperm]
  · show listMean (l.map Row.gi) = listMean (l'.map Row.gi)
    rw [listMean, listMean, (hperm.map Row.gi).sum_eq, (hperm.map Row.gi).length_eq]
  · exact listMax_perm (hperm.map Row.gi)
  · exact groupAgg_keys_sorted hourlyKey l
  · exact groupAgg_keys_sorted Row.date l
  · exact groupAgg_keys_sorted Row.week l
  · exact groupAgg_keys_sorted Row.month l

/-- The report computed from the reversed sample frame. -/
def sampleReportRev : Report :=
  (calculate_periods_generation (some sampleRows.reverse) 5 2020).getD emptyReport

theorem aggregation_perm_invariant_and_sorted_witness :
    (sampleReport.daily = sampleReportRev.daily
      ∧ sampleReport.yearly_total = sampleReportRev.yearly_total)
      ∧ List.Sorted (· < ·) (sampleReport.daily.map SummaryRow.key) := by
  obtain ⟨⟨_, h2, _, _⟩, ⟨h5, _⟩, ⟨_, h6, _, _⟩⟩ :=
    aggregation_perm_invariant_and_sorted sampleRows sampleRows.reverse 5 5 2020
      2020 sampleReport sampleReportRev (List.reverse_perm sampleRows).symm rfl rfl
  exact ⟨⟨h2, h5⟩, h6⟩
